import Mathlib

/-!
Shallow embedding of `src/main.py`, a disk-usage monitoring script.

The script defines:
* `Config.__init__` — default configuration overridden by a shallow
  `dict.update` from an optional JSON file;
* `SlackNotifier.notify` / `EmailNotifier.notify` — notification delivery
  with all exceptions caught and logged;
* `SSHDiskChecker.check_disk_usage` — remote disk-usage check returning the
  sentinel `-1` on any failure;
* `DiskMonitor.run_check` — one sequential sweep over the server list,
  notifying for every server whose usage is at or above the threshold;
* `main` — wiring: notifier dispatch on `notification_type`, then the loop.

External I/O (HTTP POST, SMTP send, SSH transport, file reading) is
represented by explicit `Except`/`Option` parameters; everything else is
translated directly from the source.
-/

namespace DiskMon

/-- A log record produced by `logging.info` / `logging.error`. -/
inductive LogEvent where
  | info (msg : String)
  | error (msg : String)
  deriving DecidableEq, Repr

/-! ### The alert message and `DiskMonitor.run_check` (main.py lines 136-147) -/

/-- The f-string `f'Warning: {server} disk usage at {usage}%'` built in
`DiskMonitor.run_check` (main.py line 147). -/
def alertMsg (server : String) (usage : Int) : String :=
  "Warning: " ++ server ++ " disk usage at " ++ toString usage ++ "%"

/-- One observable event of a `run_check` sweep: a checker call on a server
returning a usage value, or a notification carrying a message. -/
inductive TraceEvent where
  | checked (server : String) (usage : Int)
  | notified (message : String)
  deriving DecidableEq, Repr

/-- `DiskMonitor.run_check` (main.py lines 143-147) as a trace of events:
for each server in list order, call the checker; if the returned usage is
`>=` the threshold, notify with the alert message. The checker is abstracted
as a function `String → Int`, matching the `DiskChecker` interface. -/
def runCheck (servers : List String) (threshold : Int) (check : String → Int) :
    List TraceEvent :=
  match servers with
  | [] => []
  | server :: rest =>
    let usage := check server
    if threshold ≤ usage then
      TraceEvent.checked server usage ::
        TraceEvent.notified (alertMsg server usage) ::
          runCheck rest threshold check
    else
      TraceEvent.checked server usage :: runCheck rest threshold check

/-- The servers on which the checker was called, in call order. -/
def checkedHosts (t : List TraceEvent) : List String :=
  t.filterMap fun e =>
    match e with
    | TraceEvent.checked s _ => some s
    | TraceEvent.notified _ => none

/-- The messages passed to `Notifier.notify`, in emission order. -/
def sentMsgs (t : List TraceEvent) : List String :=
  t.filterMap fun e =>
    match e with
    | TraceEvent.checked _ _ => none
    | TraceEvent.notified m => some m

/-! ### String helpers mirroring the Python string methods used -/

/-- The whitespace characters removed by Python `str.strip()`. -/
def isStripChar (c : Char) : Bool :=
  c = ' ' ∨ c = '\t' ∨ c = '\n' ∨ c = '\r' ∨ c = '\x0b' ∨ c = '\x0c'

/-- Python `s.strip()`: drop leading and trailing whitespace. -/
def pyStrip (s : String) : String :=
  String.mk (((s.data.dropWhile isStripChar).reverse.dropWhile isStripChar).reverse)

/-- ASCII lowercasing of one character, as Python `str.lower()` does on the
ASCII strings involved here. -/
def lowerChar (c : Char) : Char :=
  if 'A' ≤ c ∧ c ≤ 'Z' then Char.ofNat (c.toNat + 32) else c

/-- Python `s.lower()` (on ASCII input). -/
def pyLower (s : String) : String :=
  String.mk (s.data.map lowerChar)

/-- Python `sep.join(xs)`. -/
def pyJoin (sep : String) : List String → String
  | [] => ""
  | [x] => x
  | x :: y :: rest => x ++ sep ++ pyJoin sep (y :: rest)

/-! ### `SSHDiskChecker.check_disk_usage` (main.py lines 114-133) -/

/-- Parse a nonempty all-digit character list as a natural number. -/
def digitsToNat (cs : List Char) : Option Nat :=
  if cs ≠ [] ∧ cs.all Char.isDigit then
    some (cs.foldl (fun n c => n * 10 + (c.toNat - 48)) 0)
  else
    none

/-- Python `int(s)` on a string: strip whitespace, optional sign, then a
nonempty digit run; any other shape raises `ValueError`, modelled as `none`. -/
def pyInt (s : String) : Option Int :=
  match (pyStrip s).data with
  | '+' :: rest => (digitsToNat rest).map Int.ofNat
  | '-' :: rest => (digitsToNat rest).map (fun n => -(n : Int))
  | cs => (digitsToNat cs).map Int.ofNat

/-- Python `s.replace("%", "")`: remove every `%` character. -/
def replacePercent (s : String) : String :=
  String.mk (s.data.filter (fun c => c ≠ '%'))

/-- `SSHDiskChecker.check_disk_usage` (main.py lines 114-133). The SSH
session (connect, exec_command, read) is abstracted as
`transport : Except String String`: `.error e` when any transport/auth step
raises, `.ok out` with the command's stdout otherwise. The body strips the
output, removes the `%`, and parses an integer; the enclosing
`try/except` turns every failure into the sentinel `-1`. -/
def check_disk_usage (transport : Except String String) : Int :=
  match transport with
  | Except.error _ => -1
  | Except.ok out =>
    let usage_str := pyStrip out
    match pyInt (replacePercent usage_str) with
    | some percent => percent
    | none => -1

/-! ### Notifiers (main.py lines 57-98) -/

/-- `SlackNotifier.notify` (main.py lines 67-73). The HTTP POST together
with `raise_for_status()` is abstracted as `postResult`: `.error e` when the
POST raises or the response is non-2xx, `.ok ()` otherwise. The result type
`Except String LogEvent` models Python's calling convention (a raised
exception would be `.error`); the `try/except` always returns `.ok` of a log
record. -/
def slackNotify (postResult : Except String Unit) (message : String) :
    Except String LogEvent :=
  match postResult with
  | Except.ok _ => Except.ok (LogEvent.info ("Slack notification sent: " ++ message))
  | Except.error e =>
      Except.ok (LogEvent.error ("Failed to send Slack notification: " ++ e))

/-- The message object assembled by `EmailNotifier.notify`
(main.py lines 88-92): content, fixed subject, From header, and the To
header joined with `", "`. -/
structure EmailMsg where
  subject : String
  body : String
  from_addr : String
  to_line : String
  deriving DecidableEq, Repr

/-- The `EmailMessage` built in `EmailNotifier.notify` (main.py lines 88-92). -/
def buildEmailMsg (from_addr : String) (to_addrs : List String)
    (message : String) : EmailMsg :=
  { subject := "Disk Usage Alert"
    body := message
    from_addr := from_addr
    to_line := pyJoin ", " to_addrs }

/-- `EmailNotifier.notify` (main.py lines 86-98). The SMTP connection and
`send_message` call are abstracted as `send : EmailMsg → Except String Unit`.
The result carries the list of messages handed to `send_message` (empty when
the transport raised before sending) and the log record; the `try/except`
always returns `.ok`. -/
def emailNotify (send : EmailMsg → Except String Unit) (from_addr : String)
    (to_addrs : List String) (message : String) :
    Except String (List EmailMsg × LogEvent) :=
  let msg := buildEmailMsg from_addr to_addrs message
  match send msg with
  | Except.ok _ =>
      Except.ok ([msg], LogEvent.info ("Email notification sent: " ++ message))
  | Except.error e =>
      Except.ok ([], LogEvent.error ("Failed to send email notification: " ++ e))

/-- `DiskMonitor.run_check` with the notifier's possible exceptions made
explicit: in Python an exception escaping `notify` would abort the sweep,
so the sweep is sequenced in `Except`. Returns the notifier's log records. -/
def runCheckWithNotifier (servers : List String) (threshold : Int)
    (check : String → Int) (notify : String → Except String LogEvent) :
    Except String (List LogEvent) :=
  match servers with
  | [] => Except.ok []
  | server :: rest =>
    let usage := check server
    if threshold ≤ usage then
      match notify (alertMsg server usage) with
      | Except.error e => Except.error e
      | Except.ok ev =>
        match runCheckWithNotifier rest threshold check notify with
        | Except.error e => Except.error e
        | Except.ok evs => Except.ok (ev :: evs)
    else
      runCheckWithNotifier rest threshold check notify

/-! ### Structured configuration and `main` (main.py lines 11-28, 150-173) -/

/-- The `email` sub-record of the default `notification_config`
(main.py line 21). -/
structure EmailCfg where
  smtp_server : String
  from_addr : String
  to_addrs : List String
  deriving DecidableEq, Repr

/-- The `notification_config` mapping in its default shape
(main.py lines 19-22). -/
structure NotificationCfg where
  slack_webhook_url : String
  email : EmailCfg
  deriving DecidableEq, Repr

/-- The configuration attributes read by `main` (main.py lines 14-22),
viewed as a structured record. -/
structure ConfigS where
  servers : List String
  threshold : Int
  interval : Int
  log_level : String
  notification_type : String
  notification_config : NotificationCfg
  deriving DecidableEq, Repr

/-- The notifier constructed by `main`, with its constructor arguments. -/
inductive NotifierChoice where
  | slackN (webhook_url : String)
  | emailN (smtp_server : String) (from_addr : String) (to_addrs : List String)
  deriving DecidableEq, Repr

/-- The notifier dispatch in `main` (main.py lines 156-162): compare
the lowercased notification type against `"slack"`, then `"email"`; anything
else raises `ValueError("Unsupported notifier type")`. -/
def chooseNotifier (cfg : ConfigS) : Except String NotifierChoice :=
  if pyLower cfg.notification_type = "slack" then
    Except.ok (NotifierChoice.slackN cfg.notification_config.slack_webhook_url)
  else if pyLower cfg.notification_type = "email" then
    Except.ok (NotifierChoice.emailN cfg.notification_config.email.smtp_server
      cfg.notification_config.email.from_addr
      cfg.notification_config.email.to_addrs)
  else
    Except.error "Unsupported notifier type"

/-- One observable step of `main` after configuration loading. -/
inductive MainEvent where
  | notifierReady (n : NotifierChoice)
  | checkerReady
  | monitorReady
  | tick (trace : List TraceEvent)
  deriving DecidableEq, Repr

/-- `main` (main.py lines 150-173), with the infinite loop truncated to
`ticks` iterations: choose the notifier (an unsupported `notification_type`
raises before anything else is constructed), construct the checker and the
monitor, then run `run_check` each tick. -/
def mainSteps (cfg : ConfigS) (check : String → Int) (ticks : Nat) :
    Except String (List MainEvent) :=
  match chooseNotifier cfg with
  | Except.error e => Except.error e
  | Except.ok n =>
    Except.ok
      ([MainEvent.notifierReady n, MainEvent.checkerReady, MainEvent.monitorReady] ++
        (List.range ticks).map (fun _ =>
          MainEvent.tick (runCheck cfg.servers cfg.threshold check)))

/-! ### `Config.__init__` as a dictionary merge (main.py lines 12-28)

`Config.__init__` populates `self.__dict__` with the defaults and then, if a
config file path is given and the file exists, runs
`self.__dict__.update(json.load(f))`. The attribute dictionary is modelled
as an ordered association list of JSON values. -/

/-- A JSON value, as produced by `json.load`. -/
inductive JVal where
  | jstr (s : String)
  | jint (n : Int)
  | jlist (xs : List JVal)
  | jobj (fields : List (String × JVal))
  deriving Repr

/-- `d[k] = v` on a Python dict held as an ordered association list:
an existing key keeps its position and gets the new value; a new key is
appended at the end. -/
def dictSet : List (String × JVal) → String → JVal → List (String × JVal)
  | [], k, v => [(k, v)]
  | (k₁, v₁) :: rest, k, v =>
    if k₁ = k then (k, v) :: rest else (k₁, v₁) :: dictSet rest k v

/-- Python `base.update(data)`: assign each key of `data` in order. -/
def dictUpdate (base : List (String × JVal)) :
    List (String × JVal) → List (String × JVal)
  | [] => base
  | (k, v) :: rest => dictUpdate (dictSet base k v) rest

/-- Key lookup on the attribute dictionary (first match). -/
def dictGet (k : String) (d : List (String × JVal)) : Option JVal :=
  match d with
  | [] => none
  | (k', v) :: rest => if k' = k then some v else dictGet k rest

/-- The default attribute dictionary built by `Config.__init__`
(main.py lines 14-22). -/
def defaultConfigDict : List (String × JVal) :=
  [("servers", JVal.jlist [JVal.jstr "192.168.1.10", JVal.jstr "192.168.1.11"]),
   ("threshold", JVal.jint 80),
   ("interval", JVal.jint 60),
   ("log_level", JVal.jstr "INFO"),
   ("notification_type", JVal.jstr "slack"),
   ("notification_config", JVal.jobj
     [("slack_webhook_url", JVal.jstr "http://localhost:5000/notify"),
      ("email", JVal.jobj
        [("smtp_server", JVal.jstr ""),
         ("from_addr", JVal.jstr ""),
         ("to_addrs", JVal.jlist [])])])]

/-- `Config.__init__` (main.py lines 12-28): defaults, then
`self.__dict__.update(data)` when a file path was supplied and the file
exists (`config_file = none` covers both a missing path and a nonexistent
file). -/
def configInit (config_file : Option (List (String × JVal))) :
    List (String × JVal) :=
  match config_file with
  | none => defaultConfigDict
  | some data => dictUpdate defaultConfigDict data

/-- A structured configuration equal to the defaults except for its
`notification_type`, used to instantiate the dispatch at concrete inputs. -/
def cfgWith (t : String) : ConfigS :=
  { servers := ["192.168.1.10", "192.168.1.11"]
    threshold := 80
    interval := 60
    log_level := "INFO"
    notification_type := t
    notification_config :=
      { slack_webhook_url := "http://localhost:5000/notify"
        email := { smtp_server := "", from_addr := "", to_addrs := [] } } }

/-- The checker of the spec's two-host scenario: `"A"` reports 85, every
other host reports 50. -/
def scenarioCheck (h : String) : Int :=
  if h = "A" then 85 else 50

/-! ## Helper lemmas -/

/-- `run_check` calls the checker once per server, in list order. -/
theorem checkedHosts_runCheck (servers : List String) (threshold : Int)
    (check : String → Int) :
    checkedHosts (runCheck servers threshold check) = servers := by
  induction servers with
  | nil => rfl
  | cons s rest ih =>
    unfold runCheck
    by_cases h : threshold ≤ check s <;>
      simp [h, checkedHosts, List.filterMap_cons] <;>
      simpa [checkedHosts] using ih

/-- The messages `run_check` emits are exactly the alerts for the
over-threshold servers, in list order. -/
theorem sentMsgs_runCheck (servers : List String) (threshold : Int)
    (check : String → Int) :
    sentMsgs (runCheck servers threshold check)
      = (servers.filter (fun s => decide (threshold ≤ check s))).map
          (fun s => alertMsg s (check s)) := by
  induction servers with
  | nil => rfl
  | cons s rest ih =>
    unfold runCheck
    by_cases h : threshold ≤ check s <;>
      simp [h, sentMsgs, List.filterMap_cons, List.filter_cons] <;>
      simpa [sentMsgs] using ih

/-- Looking up after one dict assignment. -/
theorem dictGet_dictSet (d : List (String × JVal)) (k k' : String) (v : JVal) :
    dictGet k' (dictSet d k v) = if k = k' then some v else dictGet k' d := by
  induction d with
  | nil => simp [dictSet, dictGet]
  | cons hd tl ih =>
    obtain ⟨k₁, v₁⟩ := hd
    by_cases h₁ : k₁ = k
    · subst h₁
      by_cases h₂ : k₁ = k'
      · subst h₂; simp [dictSet, dictGet]
      · simp [dictSet, dictGet, h₂]
    · by_cases h₂ : k₁ = k'
      · subst h₂
        have hne : ¬ k = k₁ := fun hh => h₁ hh.symm
        simp [dictSet, dictGet, h₁, hne]
      · simp [dictSet, dictGet, h₁, h₂, ih]

/-- A key absent from a dict looks up to `none`. -/
theorem dictGet_eq_none (d : List (String × JVal)) (k : String)
    (h : k ∉ d.map Prod.fst) : dictGet k d = none := by
  induction d with
  | nil => rfl
  | cons hd tl ih =>
    obtain ⟨k₁, v₁⟩ := hd
    simp only [List.map_cons, List.mem_cons] at h
    push_neg at h
    have hne : ¬ k₁ = k := fun hc => h.1 hc.symm
    simp [dictGet, hne, ih h.2]

/-- A key absent from the update data keeps its base value. -/
theorem dictGet_dictUpdate_of_none (data base : List (String × JVal))
    (k : String) (h : dictGet k data = none) :
    dictGet k (dictUpdate base data) = dictGet k base := by
  induction data generalizing base with
  | nil => rfl
  | cons hd rest ih =>
    obtain ⟨k₁, v₁⟩ := hd
    simp only [dictGet] at h
    by_cases h₁ : k₁ = k
    · simp [h₁] at h
    · simp only [h₁, if_false] at h
      rw [dictUpdate, ih _ h, dictGet_dictSet]
      simp [h₁]

/-- A key present in the update data (whose keys are distinct, as keys of a
parsed JSON object are) ends up with the file's value. -/
theorem dictGet_dictUpdate_of_some (data base : List (String × JVal))
    (k : String) (v : JVal) (hnd : (data.map Prod.fst).Nodup)
    (h : dictGet k data = some v) :
    dictGet k (dictUpdate base data) = some v := by
  induction data generalizing base with
  | nil => simp [dictGet] at h
  | cons hd rest ih =>
    obtain ⟨k₁, v₁⟩ := hd
    simp only [List.map_cons, List.nodup_cons] at hnd
    simp only [dictGet] at h
    by_cases h₁ : k₁ = k
    · subst h₁
      have hv : v₁ = v := by simpa using h
      subst hv
      rw [dictUpdate,
        dictGet_dictUpdate_of_none _ _ _ (dictGet_eq_none _ _ hnd.1),
        dictGet_dictSet, if_pos rfl]
    · simp only [h₁, if_false] at h
      rw [dictUpdate, ih _ hnd.2 h]

/-! ## Claim theorems -/

/-- C1: in `run_check`, each host of the server list triggers exactly one
notification precisely when its reported usage is at or above the threshold;
the notification message names the host and its usage percentage. In the
spec's scenario (hosts `["A","B"]`, threshold 80, A at 85, B at 50) exactly
the alert for `"A"` is sent, and it contains `"85%"`. -/
theorem C1_notify_iff_over_threshold (servers : List String) (threshold : Int)
    (check : String → Int) (host : String)
    (hmem : host ∈ servers) (hnd : servers.Nodup) :
    sentMsgs (runCheck servers threshold check)
      = (servers.filter (fun s => decide (threshold ≤ check s))).map
          (fun s => alertMsg s (check s))
    ∧ (servers.filter (fun s => decide (threshold ≤ check s))).count host
        = (if threshold ≤ check host then 1 else 0)
    ∧ (∀ h u, ∃ a b c, alertMsg h u = a ++ h ++ b
        ∧ alertMsg h u = c ++ (toString u ++ "%"))
    ∧ sentMsgs (runCheck ["A", "B"] 80 scenarioCheck)
        = ["Warning: A disk usage at 85%"]
    ∧ (∃ c, ("Warning: A disk usage at 85%" : String) = c ++ "85%") := by
  refine ⟨sentMsgs_runCheck .., ?_, ?_, by decide, ⟨"Warning: A disk usage at ", by decide⟩⟩
  · by_cases hp : threshold ≤ check host
    · rw [if_pos hp]
      exact List.count_eq_one_of_mem (hnd.filter _)
        (List.mem_filter.mpr ⟨hmem, by simp [hp]⟩)
    · rw [if_neg hp]
      exact List.count_eq_zero.mpr (fun hc => hp (by simpa using (List.mem_filter.mp hc).2))
  · intro h u
    refine ⟨"Warning: ", (" disk usage at " ++ toString u) ++ "%",
      ("Warning: " ++ h) ++ " disk usage at ", ?_, ?_⟩ <;>
      simp [alertMsg, String.append_assoc]

/-- C1 witness: the C1 theorem instantiated on the spec's scenario,
hosts `["A","B"]`, threshold 80, host `"A"`. -/
theorem C1_witness :
    sentMsgs (runCheck ["A", "B"] 80 scenarioCheck)
      = ((["A", "B"]).filter (fun s => decide ((80 : Int) ≤ scenarioCheck s))).map
          (fun s => alertMsg s (scenarioCheck s))
    ∧ ((["A", "B"]).filter (fun s => decide ((80 : Int) ≤ scenarioCheck s))).count "A"
        = (if (80 : Int) ≤ scenarioCheck "A" then 1 else 0) := by
  have h := C1_notify_iff_over_threshold ["A", "B"] 80 scenarioCheck "A"
    (by decide) (by decide)
  exact ⟨h.1, h.2.1⟩

/-- C2: with a non-negative threshold, a host whose check reports the
sentinel `-1` is never over threshold, so `run_check` sends no notification
for it; in particular the spec's scenario (one host, threshold 80, failing
check) emits no notification at all. -/
theorem C2_sentinel_never_notifies (servers : List String) (threshold : Int)
    (check : String → Int) (host : String)
    (hth : 0 ≤ threshold) (hfail : check host = -1) :
    ¬ threshold ≤ check host
    ∧ host ∉ servers.filter (fun s => decide (threshold ≤ check s))
    ∧ sentMsgs (runCheck servers threshold check)
        = (servers.filter (fun s => decide (threshold ≤ check s))).map
            (fun s => alertMsg s (check s))
    ∧ sentMsgs (runCheck ["A"] 80 (fun _ => (-1 : Int))) = [] := by
  have hlt : ¬ threshold ≤ check host := by rw [hfail]; omega
  refine ⟨hlt, ?_, sentMsgs_runCheck .., by decide⟩
  intro hc
  exact hlt (by simpa using (List.mem_filter.mp hc).2)

/-- C2 witness: the C2 theorem instantiated on the spec's scenario,
one host `"A"`, threshold 80, a checker that always fails. -/
theorem C2_witness :
    "A" ∉ (["A"]).filter (fun s => decide ((80 : Int) ≤ (fun _ => (-1 : Int)) s))
    ∧ sentMsgs (runCheck ["A"] 80 (fun _ => (-1 : Int))) = [] := by
  have h := C2_sentinel_never_notifies ["A"] 80 (fun _ => (-1 : Int)) "A"
    (by decide) rfl
  exact ⟨h.2.1, h.2.2.2⟩

/-- C3: `run_check` visits hosts sequentially in list order — the checker is
called once per host in the order of the server list, and the emitted
notifications are exactly the alerts for the over-threshold hosts in that
same order. -/
theorem C3_sequential_sweep (servers : List String) (threshold : Int)
    (check : String → Int) :
    checkedHosts (runCheck servers threshold check) = servers
    ∧ sentMsgs (runCheck servers threshold check)
        = (servers.filter (fun s => decide (threshold ≤ check s))).map
            (fun s => alertMsg s (check s)) :=
  ⟨checkedHosts_runCheck .., sentMsgs_runCheck ..⟩

/-- C4: `Config.__init__` merges the file shallowly at the top level: every
key present in the file wholesale replaces the default (a file-supplied
`notification_config` replaces the whole nested mapping, dropping absent
sub-keys such as `email`), every key absent from the file keeps its default,
and with no file (no path, or a nonexistent file) all defaults are kept —
two example hosts, threshold 80, interval 60 s, log level INFO, and the
webhook (`"slack"`) notifier. -/
theorem C4_config_shallow_merge (data : List (String × JVal)) (k : String)
    (v : JVal) (hnd : (data.map Prod.fst).Nodup) :
    (dictGet k data = some v → dictGet k (configInit (some data)) = some v)
    ∧ (dictGet k data = none →
        dictGet k (configInit (some data)) = dictGet k defaultConfigDict)
    ∧ configInit none = defaultConfigDict
    ∧ dictGet "servers" defaultConfigDict
        = some (JVal.jlist [JVal.jstr "192.168.1.10", JVal.jstr "192.168.1.11"])
    ∧ dictGet "threshold" defaultConfigDict = some (JVal.jint 80)
    ∧ dictGet "interval" defaultConfigDict = some (JVal.jint 60)
    ∧ dictGet "log_level" defaultConfigDict = some (JVal.jstr "INFO")
    ∧ dictGet "notification_type" defaultConfigDict = some (JVal.jstr "slack")
    ∧ dictGet "notification_config"
        (configInit (some [("notification_config",
          JVal.jobj [("slack_webhook_url", JVal.jstr "http://example/hook")])]))
        = some (JVal.jobj [("slack_webhook_url", JVal.jstr "http://example/hook")]) :=
  ⟨fun h => dictGet_dictUpdate_of_some data defaultConfigDict k v hnd h,
   fun h => dictGet_dictUpdate_of_none data defaultConfigDict k h,
   rfl, rfl, rfl, rfl, rfl, rfl, rfl⟩

/-- C4 witness: the C4 theorem instantiated on a file that overrides only
`threshold`: the override lands, and `interval` keeps its default. -/
theorem C4_witness :
    (dictGet "threshold" [("threshold", JVal.jint 95)] = some (JVal.jint 95) →
      dictGet "threshold" (configInit (some [("threshold", JVal.jint 95)]))
        = some (JVal.jint 95))
    ∧ (dictGet "interval" [("threshold", JVal.jint 95)] = none →
      dictGet "interval" (configInit (some [("threshold", JVal.jint 95)]))
        = dictGet "interval" defaultConfigDict) := by
  have h := C4_config_shallow_merge [("threshold", JVal.jint 95)] "threshold"
    (JVal.jint 95) (by simp)
  have h' := C4_config_shallow_merge [("threshold", JVal.jint 95)] "interval"
    (JVal.jint 95) (by simp)
  exact ⟨h.1, h'.2.1⟩

/-- C5: when `notification_type` (lowercased) is neither supported value,
`main` raises `ValueError("Unsupported notifier type")` during notifier
dispatch, before the monitor is constructed and before any check runs: the
run produces no event list at all. -/
theorem C5_unsupported_type_fatal (cfg : ConfigS) (check : String → Int)
    (ticks : Nat)
    (h1 : pyLower cfg.notification_type ≠ "slack")
    (h2 : pyLower cfg.notification_type ≠ "email") :
    mainSteps cfg check ticks = Except.error "Unsupported notifier type"
    ∧ ∀ events, mainSteps cfg check ticks ≠ Except.ok events := by
  have hc : chooseNotifier cfg = Except.error "Unsupported notifier type" := by
    unfold chooseNotifier
    rw [if_neg h1, if_neg h2]
  unfold mainSteps
  rw [hc]
  exact ⟨rfl, fun events h => by simp at h⟩

/-- C5 witness: the C5 theorem instantiated on the defaults with
`notification_type := "smoke"`, one tick. -/
theorem C5_witness :
    mainSteps (cfgWith "smoke") (fun _ => 85) 1
      = Except.error "Unsupported notifier type" :=
  (C5_unsupported_type_fatal (cfgWith "smoke") (fun _ => 85) 1
    (by decide) (by decide)).1

/-- C6: every failure inside `check_disk_usage` is caught and reported as
the sentinel `-1` rather than propagated: a raising transport (connect,
auth, exec, read) yields `-1`, unparsable command output yields `-1`, and a
sweep built on `check_disk_usage` still visits every host in order; a
well-formed output such as `" 85%\n"` parses to its usage. -/
theorem C6_checker_errors_to_sentinel (e : String) (out : String)
    (hparse : pyInt (replacePercent (pyStrip out)) = none) :
    check_disk_usage (Except.error e) = -1
    ∧ check_disk_usage (Except.ok out) = -1
    ∧ (∀ servers (threshold : Int) (transports : String → Except String String),
        checkedHosts (runCheck servers threshold
          (fun h => check_disk_usage (transports h))) = servers)
    ∧ check_disk_usage (Except.ok " 85%\n") = 85 := by
  refine ⟨rfl, ?_, fun servers threshold transports => checkedHosts_runCheck ..,
    by decide⟩
  simp [check_disk_usage, hparse]

/-- C6 witness: the C6 theorem instantiated on an auth failure and on the
unparsable output `"df: not found"`. -/
theorem C6_witness :
    check_disk_usage (Except.error "Authentication failed") = -1
    ∧ check_disk_usage (Except.ok "df: not found") = -1 := by
  have h := C6_checker_errors_to_sentinel "Authentication failed"
    "df: not found" (by decide)
  exact ⟨h.1, h.2.1⟩

/-- C7: both notifiers catch every delivery failure inside `notify` and
only log it — `slackNotify` and `emailNotify` return normally for every
transport outcome — and therefore a sweep whose notifier never raises
always completes instead of aborting. -/
theorem C7_notify_never_propagates :
    (∀ postResult message, ∃ ev, slackNotify postResult message = Except.ok ev)
    ∧ (∀ send from_addr to_addrs message, ∃ out,
        emailNotify send from_addr to_addrs message = Except.ok out)
    ∧ (∀ servers (threshold : Int) (check : String → Int)
        (notify : String → Except String LogEvent),
        (∀ m, ∃ ev, notify m = Except.ok ev) →
        ∃ evs, runCheckWithNotifier servers threshold check notify
          = Except.ok evs) := by
  refine ⟨?_, ?_, ?_⟩
  · intro postResult message
    cases postResult <;> exact ⟨_, rfl⟩
  · intro send from_addr to_addrs message
    unfold emailNotify
    cases h : send (buildEmailMsg from_addr to_addrs message) <;> simp [h]
  · intro servers threshold check notify hok
    induction servers with
    | nil => exact ⟨[], rfl⟩
    | cons s rest ih =>
      obtain ⟨evs, hevs⟩ := ih
      unfold runCheckWithNotifier
      by_cases h : threshold ≤ check s
      · rw [if_pos h]
        obtain ⟨ev, hev⟩ := hok (alertMsg s (check s))
        rw [hev, hevs]
        exact ⟨ev :: evs, rfl⟩
      · rw [if_neg h]
        exact ⟨evs, hevs⟩

/-- C7 witness: the C7 theorem instantiated on a failing HTTP POST — the
notifier returns normally and the one-host sweep completes. -/
theorem C7_witness :
    ∃ evs, runCheckWithNotifier ["A"] 80 (fun _ => (85 : Int))
      (fun m => slackNotify (Except.error "500 Server Error") m)
      = Except.ok evs :=
  C7_notify_never_propagates.2.2 ["A"] 80 (fun _ => (85 : Int))
    (fun m => slackNotify (Except.error "500 Server Error") m)
    (fun m => C7_notify_never_propagates.1 (Except.error "500 Server Error") m)

/-- C8 counterexample: the claim's enum values `"webhook"` and `"mail"` are
not the code's: with `notification_type = "webhook"` (and likewise
`"mail"`), the dispatch in `main` selects no notifier at all — it raises
`ValueError("Unsupported notifier type")`. -/
theorem C8_counterexample :
    chooseNotifier (cfgWith "webhook") = Except.error "Unsupported notifier type"
    ∧ chooseNotifier (cfgWith "mail") = Except.error "Unsupported notifier type"
    ∧ mainSteps (cfgWith "webhook") (fun _ => 85) 1
        = Except.error "Unsupported notifier type" :=
  ⟨rfl, rfl, rfl⟩

/-- C8 (amended): the supported `notification_type` enum values are
`"slack"` and `"email"`: `"slack"` selects the webhook-POST (Slack) notifier
with the configured webhook URL, and `"email"` selects the mail notifier
with the configured SMTP server, From address and To addresses. -/
theorem C8_supported_types (cfg : ConfigS) :
    (cfg.notification_type = "slack" →
      chooseNotifier cfg = Except.ok
        (NotifierChoice.slackN cfg.notification_config.slack_webhook_url))
    ∧ (cfg.notification_type = "email" →
      chooseNotifier cfg = Except.ok
        (NotifierChoice.emailN cfg.notification_config.email.smtp_server
          cfg.notification_config.email.from_addr
          cfg.notification_config.email.to_addrs)) := by
  constructor <;> intro h <;> unfold chooseNotifier <;> rw [h] <;> rfl

/-- C8 witness: the amended C8 theorem instantiated on the default
configuration shape with `notification_type = "slack"` and `"email"`. -/
theorem C8_witness :
    chooseNotifier (cfgWith "slack")
      = Except.ok (NotifierChoice.slackN "http://localhost:5000/notify")
    ∧ chooseNotifier (cfgWith "email")
      = Except.ok (NotifierChoice.emailN "" "" []) :=
  ⟨(C8_supported_types (cfgWith "slack")).1 rfl,
   (C8_supported_types (cfgWith "email")).2 rfl⟩

/-- C9: `EmailNotifier.notify` hands the SMTP transport exactly one message,
whose subject is exactly `"Disk Usage Alert"`, whose body is the warning
message passed to `notify`, whose From header is the single configured
From address, and whose To header lists the configured To addresses
(joined with `", "`); even on a transport failure at most that one message
was offered for sending. -/
theorem C9_email_single_fixed_subject (from_addr : String)
    (to_addrs : List String) (message : String) :
    emailNotify (fun _ => Except.ok ()) from_addr to_addrs message
      = Except.ok ([{ subject := "Disk Usage Alert", body := message,
                      from_addr := from_addr, to_line := pyJoin ", " to_addrs }],
          LogEvent.info ("Email notification sent: " ++ message))
    ∧ (∀ send out, emailNotify send from_addr to_addrs message = Except.ok out →
        out.1.length ≤ 1 ∧ ∀ m ∈ out.1,
          m.subject = "Disk Usage Alert" ∧ m.body = message
          ∧ m.from_addr = from_addr ∧ m.to_line = pyJoin ", " to_addrs) := by
  refine ⟨rfl, ?_⟩
  intro send out h
  unfold emailNotify at h
  cases hsend : send (buildEmailMsg from_addr to_addrs message) <;>
      simp [hsend] at h <;> subst h
  · simp
  · simp [buildEmailMsg]

/-- C9 witness: the C9 theorem instantiated on a concrete From, two To
addresses and a concrete warning message. -/
theorem C9_witness :
    emailNotify (fun _ => Except.ok ()) "alerts@example.com"
      ["ops@example.com", "oncall@example.com"] "Warning: A disk usage at 85%"
      = Except.ok ([{ subject := "Disk Usage Alert",
                      body := "Warning: A disk usage at 85%",
                      from_addr := "alerts@example.com",
                      to_line := "ops@example.com, oncall@example.com" }],
          LogEvent.info "Email notification sent: Warning: A disk usage at 85%") :=
  (C9_email_single_fixed_subject "alerts@example.com"
    ["ops@example.com", "oncall@example.com"] "Warning: A disk usage at 85%").1

/-- C10: the notifier dispatch in `main` is case-insensitive: any
`notification_type` whose lowercasing is `"slack"` selects the webhook
(Slack) notifier, any whose lowercasing is `"email"` selects the mail
notifier, and only values lowercasing to neither raise
`ValueError("Unsupported notifier type")`. -/
theorem C10_dispatch_case_insensitive (cfg : ConfigS) :
    (pyLower cfg.notification_type = "slack" →
      chooseNotifier cfg = Except.ok
        (NotifierChoice.slackN cfg.notification_config.slack_webhook_url))
    ∧ (pyLower cfg.notification_type = "email" →
      chooseNotifier cfg = Except.ok
        (NotifierChoice.emailN cfg.notification_config.email.smtp_server
          cfg.notification_config.email.from_addr
          cfg.notification_config.email.to_addrs))
    ∧ (pyLower cfg.notification_type ≠ "slack" →
      pyLower cfg.notification_type ≠ "email" →
      chooseNotifier cfg = Except.error "Unsupported notifier type") := by
  refine ⟨fun h => ?_, fun h => ?_, fun h1 h2 => ?_⟩ <;> unfold chooseNotifier
  · rw [if_pos h]
  · rw [if_neg (by rw [h]; decide), if_pos h]
  · rw [if_neg h1, if_neg h2]

/-- C10 witness: the C10 theorem instantiated on the mixed-case values
`"SLACK"`, `"Email"` and the unsupported `"sms"`. -/
theorem C10_witness :
    chooseNotifier (cfgWith "SLACK")
      = Except.ok (NotifierChoice.slackN "http://localhost:5000/notify")
    ∧ chooseNotifier (cfgWith "Email")
      = Except.ok (NotifierChoice.emailN "" "" [])
    ∧ chooseNotifier (cfgWith "sms")
      = Except.error "Unsupported notifier type" :=
  ⟨(C10_dispatch_case_insensitive (cfgWith "SLACK")).1 (by decide),
   (C10_dispatch_case_insensitive (cfgWith "Email")).2.1 (by decide),
   (C10_dispatch_case_insensitive (cfgWith "sms")).2.2 (by decide) (by decide)⟩

end DiskMon
